import Mathlib

/-!
Verification development for the PiCAN pumping-station controller.

The definitions below are a shallow embedding of the Python sources:

* `interfaces/cannetwork.py` — the `CanNetwork` fleet manager (device status
  decoding, fault isolation, control-word broadcasts, speed setpoints);
* `processes/canprocess.py` — the `CanProcess` control loop (command handling,
  the periodic tick with anti-drip bookkeeping and the pressure regulation
  decision), its `load_boolean`, `initialize_settings` and `__build_data__`;
* `processes/timeprocess.py` — `time_increase` and the body of the
  `time_updater` service-counter ticker, with Python local-variable binding
  modelled explicitly (a read of a never-assigned local is an
  `UnboundLocalError`, modelled as an `Except` error value);
* `processes/socketprocess.py` — the `SET_PRESSURE_TARGET` command branch.

Modelling conventions: the sqlite-backed settings store keeps every value as a
string; all values relevant here are numerals, so the store is modelled as a
total map from the (finitely many) setting keys to `ℚ`, with Python's
string/number round trips as the identity.  `datetime.now()` timestamps are
rational seconds, one reading per tick.  Bus traffic is recorded as an explicit
event trace so that "no write is issued" is a statement about the trace.
Python `int(...)` is truncation toward zero (`pyInt`).
-/

/-- Python int(): truncation toward zero of a rational. -/
def pyInt (q : ℚ) : Int := Int.tdiv q.num (q.den : Int)

/-! ## Device and fleet model (interfaces/cannetwork.py) -/

/-- One pump drive: bus id, the CiA-402 status word (tpdo), the control word
(rpdo), the velocity setpoint object 0x6042, and the digital-inputs object
0x60FD whose bits 16/17 carry the inlet temperature/pressure flags. -/
structure Node where
  id : Nat
  statusword : Nat
  controlword : Nat
  speed : ℚ
  digital_inputs : Nat
deriving DecidableEq

/-- CanNetwork.FAULT -/
def FAULT : Nat := 0
/-- CanNetwork.SWITCH_ON_DISABLED -/
def SWITCH_ON_DISABLED : Nat := 0x80
/-- CanNetwork.SWITCHED_ON -/
def SWITCHED_ON : Nat := 0x07
/-- CanNetwork.OPERATION_ENABLED -/
def OPERATION_ENABLED : Nat := 0x0F

/-- CanNetwork.is_faulty: true iff bit 3 of the status word is set. -/
def is_faulty (node : Node) : Bool := Nat.testBit node.statusword 3

/-- CanNetwork.get_state: fault overrides all, then operation-enabled (bit 2),
then switched-on (bit 1), else switch-on-disabled. -/
def get_state (node : Node) : Nat :=
  if is_faulty node then FAULT
  else if Nat.testBit node.statusword 2 then OPERATION_ENABLED
  else if Nat.testBit node.statusword 1 then SWITCHED_ON
  else SWITCH_ON_DISABLED

/-- Set bit `i` of a word (canopen `.bits[i] = 1`). -/
def setBit (w i : Nat) : Nat := w ||| (1 <<< i)

/-- Clear bit `i` of a word (canopen `.bits[i] = 0`): keep every bit of `w`
not in the single-bit mask. -/
def clearBit (w i : Nat) : Nat := Nat.ldiff w (1 <<< i)

/-- Setting bit `i` makes bit `i` read as 1. -/
lemma testBit_setBit_self (w i : Nat) : Nat.testBit (setBit w i) i = true := by
  simp [setBit, Nat.testBit_lor, Nat.one_shiftLeft, Nat.testBit_two_pow_self]

/-- Clearing bit `i` makes bit `i` read as 0. -/
lemma testBit_clearBit_self (w i : Nat) : Nat.testBit (clearBit w i) i = false := by
  simp [clearBit, Nat.testBit_ldiff, Nat.one_shiftLeft, Nat.testBit_two_pow_self]

/-- A bus-level event emitted by the fleet manager, recorded so that claims
about "no bus write issued" and the reset hold times are statable. -/
inductive BusEvent where
  | setControlBit (nodeId bit : Nat)
  | clearControlBit (nodeId bit : Nat)
  | sleepSeconds (t : ℚ)
deriving DecidableEq

/-- CanNetwork.reset_faulty_node: only if the node is faulty, pulse bit 7 of
the control word with 0.1 s holds; a non-faulty node is left untouched and no
bus event is emitted. -/
def reset_faulty_node (node : Node) : Node × List BusEvent :=
  if is_faulty node then
    ({ node with controlword := clearBit (setBit node.controlword 7) 7 },
     [BusEvent.setControlBit node.id 7, BusEvent.sleepSeconds (1/10),
      BusEvent.clearControlBit node.id 7, BusEvent.sleepSeconds (1/10)])
  else (node, [])

/-- The fleet: last commanded aggregate state (None before the first
broadcast), last broadcast speed, and the discovered nodes. -/
structure CanNetwork where
  state : Option Nat
  speed : ℚ
  nodes_list : List Node
deriving DecidableEq

/-- CanNetwork.set_network_state: when the target differs from the current
value, write the control word to every non-faulty node and record the new
state; otherwise do nothing. -/
def set_network_state (net : CanNetwork) (st : Nat) : CanNetwork :=
  if net.state ≠ some st then
    { net with
      nodes_list := net.nodes_list.map
        (fun n => if is_faulty n then n else { n with controlword := st }),
      state := some st }
  else net

/-- CanNetwork.set_speed_all_nodes: write the velocity setpoint to every node
in the list (the loop has no fault check), then record the speed. -/
def set_speed_all_nodes (net : CanNetwork) (rpm : ℚ) : CanNetwork :=
  { net with
    nodes_list := net.nodes_list.map (fun n => { n with speed := rpm }),
    speed := rpm }

/-- CanNetwork.reset_faulty_nodes: reset every faulty node in turn. -/
def reset_faulty_nodes (net : CanNetwork) : CanNetwork :=
  { net with nodes_list := net.nodes_list.map (fun n => (reset_faulty_node n).1) }

/-- CanNetwork.run_all_nodes: two-phase transition. -/
def run_all_nodes (net : CanNetwork) : CanNetwork :=
  set_network_state (set_network_state net SWITCHED_ON) OPERATION_ENABLED

/-- CanNetwork.stop_all_nodes: single-phase transition to switched-on. -/
def stop_all_nodes (net : CanNetwork) : CanNetwork :=
  set_network_state net SWITCHED_ON

/-- CanNetwork.get_faulty_nodes. -/
def get_faulty_nodes (net : CanNetwork) : List Nat :=
  (net.nodes_list.filter (fun n => is_faulty n)).map Node.id

/-- C8: for every status bitfield, `get_state` returns `FAULT` whenever
bit 3 (computed arithmetically as `w / 2^3 % 2 = 1`) is set, regardless of all
other bits; otherwise `OPERATION_ENABLED` if bit 2 is set; otherwise
`SWITCHED_ON` if bit 1 is set; otherwise `SWITCH_ON_DISABLED`. -/
theorem get_state_priority (i cw : Nat) (sp : ℚ) (di w : Nat) :
    (w / 2 ^ 3 % 2 = 1 → get_state ⟨i, w, cw, sp, di⟩ = FAULT)
    ∧ (w / 2 ^ 3 % 2 ≠ 1 → w / 2 ^ 2 % 2 = 1 →
        get_state ⟨i, w, cw, sp, di⟩ = OPERATION_ENABLED)
    ∧ (w / 2 ^ 3 % 2 ≠ 1 → w / 2 ^ 2 % 2 ≠ 1 → w / 2 ^ 1 % 2 = 1 →
        get_state ⟨i, w, cw, sp, di⟩ = SWITCHED_ON)
    ∧ (w / 2 ^ 3 % 2 ≠ 1 → w / 2 ^ 2 % 2 ≠ 1 → w / 2 ^ 1 % 2 ≠ 1 →
        get_state ⟨i, w, cw, sp, di⟩ = SWITCH_ON_DISABLED) := by
  have hb : ∀ k : Nat, Nat.testBit w k = decide (w / 2 ^ k % 2 = 1) := by
    intro k
    rw [Nat.testBit_to_div_mod]
  refine ⟨?_, ?_, ?_, ?_⟩ <;> intros <;>
    simp_all [get_state, is_faulty, hb]

/-- Witness for C8: evaluation at the status word 0b1111 (all of fault,
operation-enabled and switched-on bits set) returns FAULT, and at 0b0100
returns OPERATION_ENABLED. -/
theorem get_state_priority_witness :
    get_state ⟨1, 15, 0, 0, 0⟩ = FAULT ∧ get_state ⟨1, 4, 0, 0, 0⟩ = OPERATION_ENABLED :=
  ⟨(get_state_priority 1 0 0 0 15).1 (by decide),
   ((get_state_priority 1 0 0 0 4).2.1 (by decide) (by decide))⟩

/-- C9: `reset_faulty_node` on a non-faulty node is a no-op — the node (status
and control word included) is returned unchanged and the bus-event trace is
empty.  On a faulty node it emits exactly the edge-triggered sequence: set
control bit 7, hold 0.1 s (≥ 100 ms), clear it, hold 0.1 s again; after the
set the bit is 1 and after the clear it is 0. -/
theorem reset_faulty_node_spec (node : Node) :
    (is_faulty node = false → reset_faulty_node node = (node, []))
    ∧ (is_faulty node = true →
        (reset_faulty_node node).2 =
          [BusEvent.setControlBit node.id 7, BusEvent.sleepSeconds (1/10),
           BusEvent.clearControlBit node.id 7, BusEvent.sleepSeconds (1/10)]
        ∧ (1/10 : ℚ) ≥ 100/1000
        ∧ Nat.testBit (setBit node.controlword 7) 7 = true
        ∧ (reset_faulty_node node).1.controlword = clearBit (setBit node.controlword 7) 7
        ∧ Nat.testBit (clearBit (setBit node.controlword 7) 7) 7 = false) := by
  constructor
  · intro h
    simp [reset_faulty_node, h]
  · intro h
    exact ⟨by simp [reset_faulty_node, h], by norm_num,
      testBit_setBit_self node.controlword 7, by simp [reset_faulty_node, h],
      testBit_clearBit_self (setBit node.controlword 7) 7⟩

/-- Witness for C9: a faulty node (status word 8, only the fault bit set)
produces exactly the pulse trace and its control word ends with bit 7 clear;
a non-faulty one (status word 4) is untouched with an empty trace. -/
theorem reset_faulty_node_spec_witness :
    reset_faulty_node ⟨2, 4, 0, 0, 0⟩ = (⟨2, 4, 0, 0, 0⟩, [])
    ∧ (reset_faulty_node ⟨1, 8, 0, 0, 0⟩).2 =
        [BusEvent.setControlBit 1 7, BusEvent.sleepSeconds (1/10),
         BusEvent.clearControlBit 1 7, BusEvent.sleepSeconds (1/10)] :=
  ⟨(reset_faulty_node_spec ⟨2, 4, 0, 0, 0⟩).1 (by decide),
   ((reset_faulty_node_spec ⟨1, 8, 0, 0, 0⟩).2 (by decide)).1⟩

/-- C1 counterexample: the claim extends the faulty-device skip to the
speed-setpoint broadcast, but `set_speed_all_nodes` writes the setpoint to
every node: a faulty node (status word 8, fault bit set) has its setpoint
overwritten from 0 to 100 by the broadcast. -/
theorem set_speed_writes_to_faulty_node :
    is_faulty ⟨1, 8, 0, 0, 0⟩ = true
    ∧ (set_speed_all_nodes ⟨none, 0, [⟨1, 8, 0, 0, 0⟩]⟩ 100).nodes_list =
        [⟨1, 8, 0, 100, 0⟩] := by
  constructor
  · decide
  · simp [set_speed_all_nodes]

/-- C1 (amended): `set_network_state` writes the control word only to
non-faulty devices (a faulty node passes through unchanged) and only acts when
the target state differs from the current value, recording the new state;
`set_speed_all_nodes`, by contrast, writes the setpoint to every node,
faulty ones included. -/
theorem set_network_state_skips_faulty (net : CanNetwork) (st : Nat) (rpm : ℚ) (i : Nat) :
    (set_network_state net st).state = some st
    ∧ (net.state = some st → set_network_state net st = net)
    ∧ (∀ n, net.nodes_list[i]? = some n → is_faulty n = true →
        (set_network_state net st).nodes_list[i]? = some n)
    ∧ (∀ n, net.nodes_list[i]? = some n → is_faulty n = false → net.state ≠ some st →
        (set_network_state net st).nodes_list[i]? = some { n with controlword := st })
    ∧ (∀ n, net.nodes_list[i]? = some n →
        (set_speed_all_nodes net rpm).nodes_list[i]? = some { n with speed := rpm }) := by
  refine ⟨?_, ?_, ?_, ?_, ?_⟩
  · by_cases h : net.state = some st
    · simp [set_network_state, h]
    · simp [set_network_state, h]
  · intro h
    simp [set_network_state, h]
  · intro n hn hf
    by_cases h : net.state = some st
    · simp [set_network_state, h, hn]
    · simp [set_network_state, h, List.getElem?_map, hn, hf]
  · intro n hn hf hst
    simp [set_network_state, hst, List.getElem?_map, hn, hf]
  · intro n hn
    simp [set_speed_all_nodes, List.getElem?_map, hn]

/-- Witness for C1's amended theorem: on a two-node fleet (node 1 faulty,
node 2 healthy) with no prior state, broadcasting OPERATION_ENABLED leaves the
faulty node's control word untouched and writes the healthy node's. -/
theorem set_network_state_skips_faulty_witness :
    (set_network_state ⟨none, 0, [⟨1, 8, 0, 0, 0⟩, ⟨2, 4, 0, 0, 0⟩]⟩ OPERATION_ENABLED).nodes_list[0]?
      = some ⟨1, 8, 0, 0, 0⟩
    ∧ (set_network_state ⟨none, 0, [⟨1, 8, 0, 0, 0⟩, ⟨2, 4, 0, 0, 0⟩]⟩ OPERATION_ENABLED).nodes_list[1]?
      = some ⟨2, 4, OPERATION_ENABLED, 0, 0⟩ :=
  ⟨(set_network_state_skips_faulty ⟨none, 0, [⟨1, 8, 0, 0, 0⟩, ⟨2, 4, 0, 0, 0⟩]⟩
      OPERATION_ENABLED 0 0).2.2.1 ⟨1, 8, 0, 0, 0⟩ (by decide) (by decide),
   (set_network_state_skips_faulty ⟨none, 0, [⟨1, 8, 0, 0, 0⟩, ⟨2, 4, 0, 0, 0⟩]⟩
      OPERATION_ENABLED 0 1).2.2.2.1 ⟨2, 4, 0, 0, 0⟩ (by decide) (by decide) (by decide)⟩

/-! ## Settings store (picandb/settingsmanager.py, as used by the core) -/

/-- The setting keys the control core reads or writes.  The sqlite store is
string-keyed; the claims only touch this finite set. -/
inductive Key where
  | Operator_Pump_start
  | Antisgocc_OK
  | AntisgoccPeriodoControllo
  | AntisgoccNpartenze
  | AntisgoccDurataPartenze
  | Pressione_Uscita_Target
  | Pressione_Ingresso_Min
  | Pressione_Ingresso_Max
  | Pressione_Ingresso_OK
  | Pressione_Uscita
  | Pressione_Ingresso
  | impianto_TL_SERVICE
  | impianto_BK_SERVICE
  | impianto_RB_SERVICE
  | impianto_RB_Counter_sec
  | impianto_RB_Counter_min
  | impianto_RB_Counter_hour
  | impianto_BK_Counter_sec
  | impianto_BK_Counter_min
  | impianto_BK_Counter_hour
  | impianto_TL_Counter_sec
  | impianto_TL_Counter_min
  | impianto_TL_Counter_hour
  | impianto_RB_Counter_SetCounter
  | impianto_BK_Counter_SetCounter
  | impianto_TL_Counter_SetCounter
deriving DecidableEq

/-- The settings store: every stored value is a numeral string in the sqlite
database; modelled as a total rational-valued map. -/
def Store : Type := Key → ℚ

/-- SettingsManager.update_setting. -/
def update_setting (store : Store) (k : Key) (v : ℚ) : Store :=
  fun k2 => if k2 = k then v else store k2

/-! ## CanProcess state and helpers (processes/canprocess.py) -/

/-- The mutable state of `CanProcess.run`: the `self` fields loaded by
`initialize_settings` plus the run-loop locals `last_started`,
`anti_drip_start_count` and `anti_drip_current_time_frame`. -/
structure CanState where
  anti_drip_min_period : Int
  target_pressure : Int
  anti_drip_start_count_limit : Int
  min_inlet_pressure : Int
  max_inlet_pressure : Int
  anti_drip_time_limit : Int
  anti_drip : Bool
  operator_pump_start : Bool
  running : Bool
  last_started : Option ℚ
  anti_drip_start_count : Int
  anti_drip_current_time_frame : ℚ
deriving DecidableEq

/-- CanProcess.load_boolean: NOTE this is the source behaviour verbatim — the
`field_name` argument is accepted but ignored; the body always reads the
`Antisgocc_OK` setting and compares it with the string for 1 (or 0 when
`invert` is set). -/
def load_boolean (store : Store) (field_name : Key) (invert : Bool) : Bool :=
  let setting := store Key.Antisgocc_OK
  if (setting = 1 ∧ invert = false) ∨ (setting = 0 ∧ invert = true) then true
  else false

/-- CanProcess.initialize_settings: reload every configuration field and the
two boolean flags from the store (both through `load_boolean` with its default
`invert := false`). -/
def initialize_settings (s : CanState) (store : Store) : CanState :=
  { s with
    anti_drip_min_period := pyInt (store Key.AntisgoccDurataPartenze)
    target_pressure := pyInt (store Key.Pressione_Uscita_Target)
    anti_drip_start_count_limit := pyInt (store Key.AntisgoccNpartenze)
    min_inlet_pressure := pyInt (store Key.Pressione_Ingresso_Min)
    max_inlet_pressure := pyInt (store Key.Pressione_Ingresso_Max)
    anti_drip_time_limit := pyInt (store Key.AntisgoccPeriodoControllo)
    anti_drip := load_boolean store Key.Antisgocc_OK false
    operator_pump_start := load_boolean store Key.Operator_Pump_start false }

/-- A fleet-level command the tick or a channel command sends to the bus. -/
inductive FleetCmd where
  | runAll
  | stopAll
  | setSpeed (v : ℚ)
  | resetFaultyNodes
deriving DecidableEq

/-- Interpretation of a fleet command on the CanNetwork. -/
def apply_cmd (net : CanNetwork) : FleetCmd → CanNetwork
  | FleetCmd.runAll => run_all_nodes net
  | FleetCmd.stopAll => stop_all_nodes net
  | FleetCmd.setSpeed v => set_speed_all_nodes net v
  | FleetCmd.resetFaultyNodes => reset_faulty_nodes net

/-- Interpretation of a command list, left to right. -/
def apply_cmds (net : CanNetwork) (cmds : List FleetCmd) : CanNetwork :=
  cmds.foldl apply_cmd net

/-- Step 1 of the periodic tick: if `last_started` is set and at least
`anti_drip_min_period` seconds have passed since it, count the episode and
clear `last_started`. -/
def tickStep1 (s : CanState) (now : ℚ) : Int × Option ℚ :=
  match s.last_started with
  | some t =>
      if now - t ≥ (s.anti_drip_min_period : ℚ) then (s.anti_drip_start_count + 1, none)
      else (s.anti_drip_start_count, some t)
  | none => (s.anti_drip_start_count, none)

/-- Step 2 of the periodic tick: if the window expired, reset it (count to 0,
window start to now); otherwise, if the count equals the limit exactly,
persist `Antisgocc_OK = 0` and set the in-memory `anti_drip` flag.  Returns
(window start, count, anti_drip, store). -/
def tickStep2 (s : CanState) (store : Store) (now : ℚ) (count : Int) :
    ℚ × Int × Bool × Store :=
  if now - s.anti_drip_current_time_frame > (s.anti_drip_time_limit : ℚ) then
    (now, 0, s.anti_drip, store)
  else if count = s.anti_drip_start_count_limit then
    (s.anti_drip_current_time_frame, count, true, update_setting store Key.Antisgocc_OK 0)
  else
    (s.anti_drip_current_time_frame, count, s.anti_drip, store)

/-- Result of one periodic tick: new state, new store, bus commands issued. -/
structure TickResult where
  state : CanState
  store : Store
  cmds : List FleetCmd

/-- The periodic (queue-timeout) phase of `CanProcess.run`, one tick.  Inputs:
the wall clock `now` (seconds), the raw outlet-pressure reading (divided by 10
before use) and the inlet-pressure reading (the digital-input bit, compared
with 1).  Follows the source block for block: anti-drip bookkeeping, service
flags, the validity check `inlet = 1`, the run/stop decision with speed
`min(difference * 30, 3000)`, and the final persistence of both readings. -/
def tick (s : CanState) (store : Store) (now raw_outlet inlet : ℚ) : TickResult :=
  let step1 := tickStep1 s now
  let step2 := tickStep2 s store now step1.1
  let store2 := step2.2.2.2
  let tl_service := pyInt (store2 Key.impianto_TL_SERVICE)
  let bk_service := pyInt (store2 Key.impianto_BK_SERVICE)
  let rb_service := pyInt (store2 Key.impianto_RB_SERVICE)
  let outlet_pressure := raw_outlet / 10
  let s1 : CanState :=
    { s with
      anti_drip_start_count := step2.2.1
      last_started := step1.2
      anti_drip_current_time_frame := step2.1
      anti_drip := step2.2.2.1 }
  let r : TickResult :=
    if inlet = 1 then
      let store3 := update_setting store2 Key.Pressione_Ingresso_OK 1
      if tl_service = 0 ∧ bk_service = 0 ∧ rb_service = 0 then
        if outlet_pressure < (s1.target_pressure : ℚ) ∧ s1.anti_drip = false
            ∧ s1.operator_pump_start = true then
          let difference := (s1.target_pressure : ℚ) - outlet_pressure
          let started :=
            if s1.running = false then
              (([FleetCmd.runAll] : List FleetCmd), true,
               if s1.last_started = none then some now else s1.last_started)
            else (([] : List FleetCmd), s1.running, s1.last_started)
          if difference > 0 then
            { state := { s1 with running := started.2.1, last_started := started.2.2 },
              store := store3,
              cmds := started.1 ++ [FleetCmd.setSpeed (min (difference * 30) 3000)] }
          else
            { state := { s1 with running := false, last_started := started.2.2 },
              store := store3,
              cmds := started.1 ++ [FleetCmd.setSpeed 0, FleetCmd.stopAll] }
        else
          { state := { s1 with running := false }, store := store3,
            cmds := [FleetCmd.stopAll] }
      else
        { state := { s1 with running := false }, store := store3,
          cmds := [FleetCmd.stopAll] }
    else
      { state := { s1 with running := false },
        store := update_setting store2 Key.Pressione_Ingresso_OK 0,
        cmds := [FleetCmd.stopAll] }
  { r with
    store := update_setting (update_setting r.store Key.Pressione_Uscita outlet_pressure)
      Key.Pressione_Ingresso inlet }

/-- The GET_INFO snapshot assembled by `CanProcess.__build_data__`. -/
structure InfoSnapshot where
  inlet_pressure : ℚ
  inlet_temperature : ℚ
  outlet_pressure : ℚ
  outlet_pressure_target : ℚ
  working_hours_counter : ℚ
  working_minutes_counter : ℚ
  anti_drip : Bool
  alarms : List Nat
  tl_service : ℚ
  bk_service : ℚ
  rb_service : ℚ
  run : Bool
  running : Bool
deriving DecidableEq

/-- CanProcess.__build_data__: the snapshot is built from the raw sensor
reads (outlet pressure is NOT divided by 10 here), the settings store and the
in-memory flags; both working-time counters read the BK counter keys as in the
source. -/
def build_data (s : CanState) (store : Store) (inlet temperature raw_outlet : ℚ)
    (alarms : List Nat) : InfoSnapshot :=
  { inlet_pressure := inlet
    inlet_temperature := temperature
    outlet_pressure := raw_outlet
    outlet_pressure_target := store Key.Pressione_Uscita_Target
    working_hours_counter := store Key.impianto_BK_Counter_hour
    working_minutes_counter := store Key.impianto_BK_Counter_min
    anti_drip := s.anti_drip
    alarms := alarms
    tl_service := store Key.impianto_TL_SERVICE
    bk_service := store Key.impianto_BK_SERVICE
    rb_service := store Key.impianto_RB_SERVICE
    run := s.operator_pump_start
    running := s.running }

/-- The string commands `CanProcess.run` compares against, as a closed type;
any other string falls in `unknown` and is answered INVALID. -/
inductive Command where
  | RUN
  | STOP
  | GET_INFO
  | RESET_PRESSURE_TARGET
  | unknown
deriving DecidableEq

/-- The reply written back on the result queue. -/
inductive Reply where
  | ok
  | invalid
  | info (d : InfoSnapshot)
deriving DecidableEq

/-- The command phase of `CanProcess.run`: RUN sets the operator flag, resets
faulty nodes and persists the flag; STOP clears the flag, persists it, stops
the fleet immediately and clears `running`; GET_INFO answers the snapshot;
RESET_PRESSURE_TARGET reloads `target_pressure` from the store.  Sensor
arguments are only consulted by GET_INFO. -/
def handle_command (cmd : Command) (s : CanState) (store : Store)
    (inlet temperature raw_outlet : ℚ) (alarms : List Nat) :
    CanState × Store × Reply × List FleetCmd :=
  match cmd with
  | Command.RUN =>
      ({ s with operator_pump_start := true },
       update_setting store Key.Operator_Pump_start 1, Reply.ok,
       [FleetCmd.resetFaultyNodes])
  | Command.STOP =>
      ({ s with operator_pump_start := false, running := false },
       update_setting store Key.Operator_Pump_start 0, Reply.ok,
       [FleetCmd.stopAll])
  | Command.GET_INFO =>
      (s, store, Reply.info (build_data s store inlet temperature raw_outlet alarms), [])
  | Command.RESET_PRESSURE_TARGET =>
      ({ s with target_pressure := pyInt (store Key.Pressione_Uscita_Target) },
       store, Reply.ok, [])
  | Command.unknown => (s, store, Reply.invalid, [])

/-- The SET_PRESSURE_TARGET branch of `SocketProcess.run` for a command of the
shape SET_PRESSURE_TARGET: n — store the payload under
`Pressione_Uscita_Target`, forward RESET_PRESSURE_TARGET to the can process
and relay its reply. -/
def socket_set_pressure_target (n : Int) (s : CanState) (store : Store) :
    CanState × Store × Reply :=
  let store1 := update_setting store Key.Pressione_Uscita_Target (n : ℚ)
  let h := handle_command Command.RESET_PRESSURE_TARGET s store1 0 0 0 []
  (h.1, h.2.1, h.2.2.1)

/-- The tick never moves the anti-drip flag away from the value computed by
the bookkeeping phase (steps 1 and 2). -/
lemma tick_state_anti_drip (s : CanState) (store : Store) (now raw inlet : ℚ) :
    (tick s store now raw inlet).state.anti_drip =
      (tickStep2 s store now (tickStep1 s now).1).2.2.1 := by
  simp only [tick]
  repeat' split
  all_goals rfl

/-- The tick's resulting episode count is the one computed by the bookkeeping
phase. -/
lemma tick_state_count (s : CanState) (store : Store) (now raw inlet : ℚ) :
    (tick s store now raw inlet).state.anti_drip_start_count =
      (tickStep2 s store now (tickStep1 s now).1).2.1 := by
  simp only [tick]
  repeat' split
  all_goals rfl

/-- The tick's resulting window start is the one computed by the bookkeeping
phase. -/
lemma tick_state_frame (s : CanState) (store : Store) (now raw inlet : ℚ) :
    (tick s store now raw inlet).state.anti_drip_current_time_frame =
      (tickStep2 s store now (tickStep1 s now).1).1 := by
  simp only [tick]
  repeat' split
  all_goals rfl

/-- After a tick, the stored `Antisgocc_OK` value is exactly what the
bookkeeping phase left there: the later writes of the tick touch only the
pressure keys. -/
lemma tick_store_antisgocc (s : CanState) (store : Store) (now raw inlet : ℚ) :
    (tick s store now raw inlet).store Key.Antisgocc_OK =
      (tickStep2 s store now (tickStep1 s now).1).2.2.2 Key.Antisgocc_OK := by
  simp only [tick]
  repeat' split
  all_goals simp [update_setting]

/-- The bookkeeping phase changes the store only at `Antisgocc_OK`. -/
lemma tickStep2_store_other (s : CanState) (store : Store) (now : ℚ) (count : Int)
    (k : Key) (hk : k ≠ Key.Antisgocc_OK) :
    (tickStep2 s store now count).2.2.2 k = store k := by
  unfold tickStep2
  repeat' split
  all_goals simp [update_setting, hk]

/-- C5: the anti-drip triggered flag is sticky within a run — a tick never
clears it (it can only set it), a window rollover (now − window start >
window duration) resets the count to 0 and the window start to now while
leaving the flag exactly as it was, and no channel command
(RUN/STOP/GET_INFO/RESET_PRESSURE_TARGET/unknown) touches it. -/
theorem anti_drip_sticky (s : CanState) (store : Store) (now raw inlet : ℚ)
    (cmd : Command) (it tmp ro : ℚ) (al : List Nat) :
    (s.anti_drip = true → (tick s store now raw inlet).state.anti_drip = true)
    ∧ (now - s.anti_drip_current_time_frame > (s.anti_drip_time_limit : ℚ) →
        (tick s store now raw inlet).state.anti_drip_start_count = 0
        ∧ (tick s store now raw inlet).state.anti_drip_current_time_frame = now
        ∧ (tick s store now raw inlet).state.anti_drip = s.anti_drip)
    ∧ (handle_command cmd s store it tmp ro al).1.anti_drip = s.anti_drip := by
  refine ⟨?_, ?_, ?_⟩
  · intro h
    rw [tick_state_anti_drip]
    unfold tickStep2
    split
    · exact h
    · split
      · rfl
      · exact h
  · intro h
    rw [tick_state_count, tick_state_frame, tick_state_anti_drip]
    unfold tickStep2
    rw [if_pos h]
    exact ⟨rfl, rfl, rfl⟩
  · cases cmd <;> rfl

/-- A triggered state used to witness C5's stickiness. -/
def stickyS : CanState :=
  ⟨10, 5, 3, 0, 20, 1000, true, true, false, none, 0, 0⟩

/-- Witness for C5: with the flag already true, a tick at time 0 keeps it
true, and a RUN command keeps it true as well. -/
theorem anti_drip_sticky_witness :
    (tick stickyS (fun _ => 0) 0 0 1).state.anti_drip = true
    ∧ (handle_command Command.RUN stickyS (fun _ => 0) 0 0 0 []).1.anti_drip
        = stickyS.anti_drip :=
  ⟨(anti_drip_sticky stickyS (fun _ => 0) 0 0 1 Command.RUN 0 0 0 []).1 rfl,
   (anti_drip_sticky stickyS (fun _ => 0) 0 0 1 Command.RUN 0 0 0 []).2.2⟩

/-- C2 (amended): in `CanProcess.run` the inlet check is the validity-bit
comparison `inlet_pressure == 1`, not an interval check; on every periodic
tick where the inlet reading differs from 1, the loop stops the fleet
(`stop_all_nodes` is the only bus command, so no speed command is issued),
clears `running`, and persists `Pressione_Ingresso_OK = 0`, regardless of
`operator_pump_start`. -/
theorem inlet_invalid_stops_fleet (s : CanState) (store : Store) (now raw inlet : ℚ)
    (h : inlet ≠ 1) :
    (tick s store now raw inlet).cmds = [FleetCmd.stopAll]
    ∧ (tick s store now raw inlet).state.running = false
    ∧ (tick s store now raw inlet).store Key.Pressione_Ingresso_OK = 0
    ∧ ∀ v, FleetCmd.setSpeed v ∉ (tick s store now raw inlet).cmds := by
  refine ⟨?_, ?_, ?_, ?_⟩ <;>
    simp [tick, h, update_setting]

/-- Witness for C2's amended theorem: a tick with inlet reading 5 (validity
bit not 1) on an otherwise run-ready state issues only a stop. -/
theorem inlet_invalid_stops_fleet_witness :
    (tick stickyS (fun _ => 0) 0 0 5).cmds = [FleetCmd.stopAll]
    ∧ (tick stickyS (fun _ => 0) 0 0 5).state.running = false
    ∧ (tick stickyS (fun _ => 0) 0 0 5).store Key.Pressione_Ingresso_OK = 0
    ∧ ∀ v, FleetCmd.setSpeed v ∉ (tick stickyS (fun _ => 0) 0 0 5).cmds :=
  inlet_invalid_stops_fleet stickyS (fun _ => 0) 0 0 5 (by norm_num)

/-- A run-ready control-loop state whose configured inlet interval is
[2, 8]: minimum inlet pressure 2, maximum 8, target pressure 12, anti-drip
limit 10, window 1000 s, minimum episode duration 10 s; flag clear, operator
run requested, fleet stopped. -/
def intervalS : CanState :=
  ⟨10, 12, 10, 2, 8, 1000, false, true, false, none, 0, 0⟩

/-- C2 counterexample: with the inlet interval configured to [2, 8], a tick
whose inlet reading is 1 — outside the closed interval — does not stop the
fleet: the code's check is `inlet == 1`, so it starts the fleet, issues the
speed command min((12 − 0) × 30, 3000) = 360, and marks the inlet VALID
(`Pressione_Ingresso_OK = 1`). -/
theorem inlet_outside_interval_still_runs :
    ((1:ℚ) < (intervalS.min_inlet_pressure : ℚ))
    ∧ (tick intervalS (fun _ => 0) 0 0 1).cmds =
        [FleetCmd.runAll, FleetCmd.setSpeed 360]
    ∧ (tick intervalS (fun _ => 0) 0 0 1).store Key.Pressione_Ingresso_OK = 1
    ∧ (tick intervalS (fun _ => 0) 0 0 1).state.running = true := by
  refine ⟨by norm_num [intervalS], ?_, ?_, ?_⟩ <;>
    norm_num [tick, tickStep1, tickStep2, pyInt, update_setting, intervalS, min_def] <;>
      decide

/-- C3 (amended): on a periodic tick with the inlet validity bit set, all
three service flags 0, anti-drip (as left by the bookkeeping phase) clear and
operator run requested: with error = target_pressure − outlet_pressure
(outlet = raw reading / 10), if error > 0 the tick starts the fleet when it
was not running and commands speed min(error × 30, 3000); if error ≤ 0 the
tick stops the fleet and issues NO speed command at all (the source's
speed-0 branch is unreachable because the run guard already requires
outlet < target). -/
theorem error_to_speed (s : CanState) (store : Store) (now raw : ℚ)
    (h2 : pyInt (store Key.impianto_TL_SERVICE) = 0)
    (h3 : pyInt (store Key.impianto_BK_SERVICE) = 0)
    (h4 : pyInt (store Key.impianto_RB_SERVICE) = 0)
    (h5 : (tickStep2 s store now (tickStep1 s now).1).2.2.1 = false)
    (h6 : s.operator_pump_start = true) :
    ((s.target_pressure : ℚ) - raw / 10 > 0 →
        (tick s store now raw 1).cmds =
          (if s.running = true then [] else [FleetCmd.runAll])
            ++ [FleetCmd.setSpeed (min (((s.target_pressure : ℚ) - raw / 10) * 30) 3000)])
    ∧ ((s.target_pressure : ℚ) - raw / 10 ≤ 0 →
        (tick s store now raw 1).cmds = [FleetCmd.stopAll]
        ∧ (tick s store now raw 1).state.running = false
        ∧ ∀ v, FleetCmd.setSpeed v ∉ (tick s store now raw 1).cmds) := by
  have hTL := tickStep2_store_other s store now (tickStep1 s now).1
    Key.impianto_TL_SERVICE (by decide)
  have hBK := tickStep2_store_other s store now (tickStep1 s now).1
    Key.impianto_BK_SERVICE (by decide)
  have hRB := tickStep2_store_other s store now (tickStep1 s now).1
    Key.impianto_RB_SERVICE (by decide)
  constructor
  · intro herr
    have hout : raw / 10 < (s.target_pressure : ℚ) := by linarith
    simp only [tick]
    simp only [hTL, hBK, hRB, h2, h3, h4, h5, h6]
    norm_num [hout, herr]
    cases hr : s.running <;> simp [hr]
  · intro herr
    have hout : ¬(raw / 10 < (s.target_pressure : ℚ)) := by
      intro hlt
      linarith
    simp only [tick]
    simp only [hTL, hBK, hRB, h2, h3, h4, h5, h6]
    norm_num [hout]
    intro v hv
    simp at hv

/-- Witness for C3's amended theorem: from the run-ready state with target 12
and outlet reading 0, the tick starts the fleet and commands
min((12 − 0) × 30, 3000). -/
theorem error_to_speed_witness :
    (tick intervalS (fun _ => 0) 0 0 1).cmds =
      (if intervalS.running = true then [] else [FleetCmd.runAll])
        ++ [FleetCmd.setSpeed (min (((intervalS.target_pressure : ℚ) - 0 / 10) * 30) 3000)] :=
  (error_to_speed intervalS (fun _ => 0) 0 0 (by decide) (by decide) (by decide)
    (by norm_num [tickStep1, tickStep2, intervalS]) rfl).1 (by norm_num [intervalS])

/-- A control-loop state with target 5 in which the fleet is currently
running: operator run requested, no anti-drip, no open episode. -/
def runningS : CanState :=
  ⟨10, 5, 3, 0, 20, 1000, false, true, true, none, 0, 0⟩

/-- The fleet as last commanded: operation enabled, speed setpoint 150. -/
def prevNet : CanNetwork :=
  ⟨some OPERATION_ENABLED, 150, [⟨1, 4, 0x0F, 150, 0⟩]⟩

/-- C3 counterexample: on a tick satisfying the claim's premise (inlet bit
set, services 0, anti-drip clear, operator run requested) with
outlet = 100/10 = 10 ≥ target 5, i.e. error ≤ 0, the commanded speed is NOT
zero: the tick issues only a stop, no speed command at all, and a fleet whose
last setpoint was 150 still holds setpoint 150 afterwards. -/
theorem target_reached_issues_no_speed_command :
    runningS.operator_pump_start = true
    ∧ ((runningS.target_pressure : ℚ) - 100 / 10 ≤ 0)
    ∧ (tick runningS (fun _ => 0) 0 100 1).cmds = [FleetCmd.stopAll]
    ∧ FleetCmd.setSpeed 0 ∉ (tick runningS (fun _ => 0) 0 100 1).cmds
    ∧ (apply_cmds prevNet (tick runningS (fun _ => 0) 0 100 1).cmds).speed = 150 := by
  have hcmds : (tick runningS (fun _ => 0) 0 100 1).cmds = [FleetCmd.stopAll] := by
    norm_num [tick, tickStep1, tickStep2, pyInt, update_setting, runningS]
  refine ⟨rfl, by norm_num [runningS], hcmds, ?_, ?_⟩
  · rw [hcmds]
    simp
  · rw [hcmds]
    norm_num [apply_cmds, apply_cmd, stop_all_nodes, set_network_state, prevNet,
      SWITCHED_ON, OPERATION_ENABLED]

/-- C4 (amended): within an unexpired window, the anti-drip trigger fires on
exact equality — after the episode bookkeeping the flag is set (and
`Antisgocc_OK = 0` persisted) exactly when the count equals the limit, and a
count different from the limit (in particular one already past it) leaves the
flag untouched.  The count itself increments on the first tick at least
`anti_drip_min_period` seconds after the recorded episode start, regardless
of when the pump actually stopped: the increment condition compares the tick
time with the episode START, not with the episode's length. -/
theorem episode_counting_and_trigger (s : CanState) (store : Store)
    (now raw inlet t : ℚ)
    (hwin : ¬(now - s.anti_drip_current_time_frame > (s.anti_drip_time_limit : ℚ))) :
    (s.last_started = some t → now - t ≥ (s.anti_drip_min_period : ℚ) →
        (tick s store now raw inlet).state.anti_drip_start_count
            = s.anti_drip_start_count + 1
        ∧ (s.anti_drip_start_count + 1 = s.anti_drip_start_count_limit →
            (tick s store now raw inlet).state.anti_drip = true
            ∧ (tick s store now raw inlet).store Key.Antisgocc_OK = 0))
    ∧ (s.last_started = some t → now - t < (s.anti_drip_min_period : ℚ) →
        (tick s store now raw inlet).state.anti_drip_start_count
            = s.anti_drip_start_count)
    ∧ (s.last_started = none →
        (tick s store now raw inlet).state.anti_drip_start_count
            = s.anti_drip_start_count)
    ∧ ((tickStep1 s now).1 ≠ s.anti_drip_start_count_limit →
        (tick s store now raw inlet).state.anti_drip = s.anti_drip) := by
  refine ⟨?_, ?_, ?_, ?_⟩
  · intro hls hdur
    have hstep1 : tickStep1 s now = (s.anti_drip_start_count + 1, none) := by
      unfold tickStep1
      rw [hls]
      dsimp only
      rw [if_pos hdur]
    refine ⟨?_, ?_⟩
    · rw [tick_state_count, hstep1]
      unfold tickStep2
      rw [if_neg hwin]
      split <;> rfl
    · intro hlim
      constructor
      · rw [tick_state_anti_drip, hstep1]
        unfold tickStep2
        rw [if_neg hwin]
        rw [if_pos hlim]
      · rw [tick_store_antisgocc, hstep1]
        unfold tickStep2
        rw [if_neg hwin]
        rw [if_pos hlim]
        simp [update_setting]
  · intro hls hdur
    have hstep1 : tickStep1 s now = (s.anti_drip_start_count, some t) := by
      unfold tickStep1
      rw [hls]
      dsimp only
      rw [if_neg (not_le.mpr hdur)]
    rw [tick_state_count, hstep1]
    unfold tickStep2
    rw [if_neg hwin]
    split <;> rfl
  · intro hls
    have hstep1 : tickStep1 s now = (s.anti_drip_start_count, none) := by
      unfold tickStep1
      rw [hls]
    rw [tick_state_count, hstep1]
    unfold tickStep2
    rw [if_neg hwin]
    split <;> rfl
  · intro hne
    rw [tick_state_anti_drip]
    unfold tickStep2
    rw [if_neg hwin]
    rw [if_neg hne]

/-- A state one episode short of the anti-drip limit: count 2, limit 3,
minimum episode duration 10 s, window 1000 s, an episode recorded as started
at time 0. -/
def almostS : CanState :=
  ⟨10, 5, 3, 0, 20, 1000, false, true, false, some 0, 2, 0⟩

/-- Witness for C4's amended theorem: at time 10 the pending episode is
counted (2 → 3), 3 equals the limit exactly, so the tick sets the anti-drip
flag and persists Antisgocc_OK = 0. -/
theorem episode_counting_and_trigger_witness :
    (tick almostS (fun _ => 0) 10 100 1).state.anti_drip_start_count
        = almostS.anti_drip_start_count + 1
    ∧ (tick almostS (fun _ => 0) 10 100 1).state.anti_drip = true
    ∧ (tick almostS (fun _ => 0) 10 100 1).store Key.Antisgocc_OK = 0 := by
  have h := (episode_counting_and_trigger almostS (fun _ => 0) 10 100 1 0
    (by norm_num [almostS])).1 rfl (by norm_num [almostS])
  exact ⟨h.1, (h.2 (by decide)).1, (h.2 (by decide)).2⟩

/-- An idle, run-ready control state with target 5, minimum episode duration
10 s, window 1000 s, anti-drip limit 3, used for the C4 counterexample. -/
def epS0 : CanState :=
  ⟨10, 5, 3, 0, 20, 1000, false, true, false, none, 0, 0⟩

/-- The state after the C4 counterexample's first tick: pump running,
episode opened at time 0. -/
def epS1 : CanState :=
  ⟨10, 5, 3, 0, 20, 1000, false, true, true, some 0, 0, 0⟩

/-- The store after the C4 counterexample's first tick. -/
def epStore1 : Store :=
  fun k => if k = Key.Pressione_Ingresso_OK then 1
    else if k = Key.Pressione_Ingresso then 1 else 0

/-- The state after the C4 counterexample's second tick: pump commanded
stopped at time 1, the episode start of time 0 still recorded. -/
def epS2 : CanState :=
  ⟨10, 5, 3, 0, 20, 1000, false, true, false, some 0, 0, 0⟩

/-- C4 counterexample: an episode during which the pump actually ran for only
1 second (< the 10 s minimum episode duration) still increments
`anti_drip_start_count`.  Tick at time 0 (outlet 0 < target 5) starts the
pump and opens the episode; tick at time 1 (outlet 10 ≥ 5) stops the pump —
the episode lasted 1 s and the count is still 0 — but the tick at time 10
increments the count to 1 anyway, because the code compares the tick time
with the episode start rather than with the time the pump stopped. -/
theorem short_episode_still_counts :
    (tick epS0 (fun _ => 0) 0 0 1).state = epS1
    ∧ (tick epS1 epStore1 1 100 1).state = epS2
    ∧ epS2.running = false
    ∧ epS2.anti_drip_start_count = 0
    ∧ (tick epS2 epStore1 10 100 1).state.anti_drip_start_count = 1 := by
  refine ⟨?_, ?_, rfl, rfl, ?_⟩
  · norm_num [tick, tickStep1, tickStep2, pyInt, update_setting, epS0, epS1, min_def]
  · norm_num [tick, tickStep1, tickStep2, pyInt, update_setting, epS1, epS2, epStore1]
  · norm_num [tick, tickStep1, tickStep2, pyInt, update_setting, epS2, epStore1]

/-- A store as persisted before a trigger: operator run flag stored as 1,
anti-drip not yet triggered (Antisgocc_OK stored as 1), all else 0. -/
def preTriggerStore : Store :=
  fun k => if k = Key.Operator_Pump_start then 1
    else if k = Key.Antisgocc_OK then 1 else 0

/-- A loop state that is about to trigger: the episode count already equals
the limit 3 inside an unexpired window. -/
def trigS : CanState :=
  ⟨10, 5, 3, 0, 20, 1000, false, true, false, none, 3, 0⟩

/-- C6 evidence (the code contradicts the claim and its own intent): the tick
at time 1 triggers anti-drip (flag true, `Antisgocc_OK = 0` persisted), the
stored operator-run flag is still 1, yet `initialize_settings` run on exactly
that persisted store yields `anti_drip = false` (the trigger is lost —
`load_boolean` maps the persisted 0 to false) and `operator_pump_start =
false` (it does not even read the `Operator_Pump_start` key, because
`load_boolean` ignores its `field_name` argument and always reads
`Antisgocc_OK`). -/
theorem persisted_trigger_lost_on_restart :
    (tick trigS preTriggerStore 1 100 1).state.anti_drip = true
    ∧ (tick trigS preTriggerStore 1 100 1).store Key.Antisgocc_OK = 0
    ∧ (tick trigS preTriggerStore 1 100 1).store Key.Operator_Pump_start = 1
    ∧ (initialize_settings trigS ((tick trigS preTriggerStore 1 100 1).store)).anti_drip
        = false
    ∧ (initialize_settings trigS
        ((tick trigS preTriggerStore 1 100 1).store)).operator_pump_start = false := by
  refine ⟨?_, ?_, ?_, ?_, ?_⟩ <;>
    norm_num [tick, tickStep1, tickStep2, pyInt, update_setting, trigS,
      preTriggerStore, initialize_settings, load_boolean] <;>
      decide

/-! ## Service-counter ticker (processes/timeprocess.py) -/

/-- processes/timeprocess.py time_increase: one-second roll-over of a
seconds/minutes/hours triple; returns (seconds, minutes, hours). -/
def time_increase (seconds minutes hours : Int) : Int × Int × Int :=
  let s1 := seconds + 1
  let p1 := if s1 = 60 then (0, minutes + 1) else (s1, minutes)
  let p2 := if p1.2 = 60 then (0, hours + 1) else (p1.2, hours)
  (p1.1, p2.1, p2.2)

/-- The Python locals of `time_updater` that are read in guards.  Each is
`none` until the function body first assigns it. -/
inductive PyVar where
  | rb_hour
  | rb_min
  | rb_seconds
  | bk_hour
  | bk_min
  | bk_seconds
  | tl_hour
  | tl_min
  | tl_seconds
deriving DecidableEq

/-- The binding state of `time_updater`'s counter locals. -/
structure TimeLocals where
  rb_hour : Option Int
  rb_min : Option Int
  rb_seconds : Option Int
  bk_hour : Option Int
  bk_min : Option Int
  bk_seconds : Option Int
  tl_hour : Option Int
  tl_min : Option Int
  tl_seconds : Option Int
deriving DecidableEq

/-- Reading a Python local: an unassigned local raises UnboundLocalError,
modelled as the error value naming the variable. -/
def readLocal (name : PyVar) (v : Option Int) : Except PyVar Int :=
  match v with
  | some x => Except.ok x
  | none => Except.error name

/-- One iteration of the `time_updater` loop body (timeprocess.py lines
37-88), with the local-binding environment explicit.  When `run == 1` and
`reset == 0` the three guards `rb_hour < rb_limit`, `bk_hour < bk_limit`,
`tl_hour < tl_limit` read the counter locals, each guarded block reads the
counters from the store, increases them, flags the SERVICE lock when the hour
count reaches the limit, and rebinds the locals; afterwards all nine locals
are written back to the store unconditionally.  Finally `run` is re-read.
The `reset == 1` block only sleeps, so it is not modelled beyond its lack of
assignments. -/
def time_updater_iteration (store : Store) (reset run rb_limit bk_limit tl_limit : Int)
    (L : TimeLocals) : Except PyVar (Store × TimeLocals × Int) := do
  let result ←
    if run = 1 ∧ reset = 0 then do
      let rbh ← readLocal PyVar.rb_hour L.rb_hour
      let step_rb ←
        if rbh < rb_limit then
          let r := time_increase (pyInt (store Key.impianto_RB_Counter_sec))
            (pyInt (store Key.impianto_RB_Counter_min))
            (pyInt (store Key.impianto_RB_Counter_hour))
          let store2 := if r.2.2 ≥ rb_limit then
              update_setting store Key.impianto_RB_SERVICE 1
            else store
          Except.ok (store2,
            { L with
              rb_seconds := some r.1
              rb_min := some r.2.1
              rb_hour := some r.2.2 })
        else Except.ok (store, L)
      let storeRB := step_rb.1
      let Lrb := step_rb.2
      let bkh ← readLocal PyVar.bk_hour Lrb.bk_hour
      let step_bk ←
        if bkh < bk_limit then
          let r := time_increase (pyInt (storeRB Key.impianto_BK_Counter_sec))
            (pyInt (storeRB Key.impianto_BK_Counter_min))
            (pyInt (storeRB Key.impianto_BK_Counter_hour))
          let store2 := if r.2.2 ≥ bk_limit then
              update_setting storeRB Key.impianto_BK_SERVICE 1
            else storeRB
          Except.ok (store2,
            { Lrb with
              bk_seconds := some r.1
              bk_min := some r.2.1
              bk_hour := some r.2.2 })
        else Except.ok (storeRB, Lrb)
      let storeBK := step_bk.1
      let Lbk := step_bk.2
      let tlh ← readLocal PyVar.tl_hour Lbk.tl_hour
      let step_tl ←
        if tlh < tl_limit then
          let r := time_increase (pyInt (storeBK Key.impianto_TL_Counter_sec))
            (pyInt (storeBK Key.impianto_TL_Counter_min))
            (pyInt (storeBK Key.impianto_TL_Counter_hour))
          let store2 := if r.2.2 ≥ tl_limit then
              update_setting storeBK Key.impianto_TL_SERVICE 1
            else storeBK
          Except.ok (store2,
            { Lbk with
              tl_seconds := some r.1
              tl_min := some r.2.1
              tl_hour := some r.2.2 })
        else Except.ok (storeBK, Lbk)
      let L2 := step_tl.2
      let vrbh ← readLocal PyVar.rb_hour L2.rb_hour
      let vrbm ← readLocal PyVar.rb_min L2.rb_min
      let vrbs ← readLocal PyVar.rb_seconds L2.rb_seconds
      let vbkh ← readLocal PyVar.bk_hour L2.bk_hour
      let vbkm ← readLocal PyVar.bk_min L2.bk_min
      let vbks ← readLocal PyVar.bk_seconds L2.bk_seconds
      let vtlh ← readLocal PyVar.tl_hour L2.tl_hour
      let vtlm ← readLocal PyVar.tl_min L2.tl_min
      let vtls ← readLocal PyVar.tl_seconds L2.tl_seconds
      let store3 := update_setting (update_setting (update_setting step_tl.1
        Key.impianto_RB_Counter_hour (vrbh : ℚ))
        Key.impianto_RB_Counter_min (vrbm : ℚ))
        Key.impianto_RB_Counter_sec (vrbs : ℚ)
      let store4 := update_setting (update_setting (update_setting store3
        Key.impianto_BK_Counter_hour (vbkh : ℚ))
        Key.impianto_BK_Counter_min (vbkm : ℚ))
        Key.impianto_BK_Counter_sec (vbks : ℚ)
      let store5 := update_setting (update_setting (update_setting store4
        Key.impianto_TL_Counter_hour (vtlh : ℚ))
        Key.impianto_TL_Counter_min (vtlm : ℚ))
        Key.impianto_TL_Counter_sec (vtls : ℚ)
      Except.ok (store5, L2)
    else Except.ok (store, L)
  Except.ok (result.1, result.2, pyInt (result.1 Key.Operator_Pump_start))

/-- The first iteration of `time_updater`: limits and the run flag are read
from the store, and every counter local starts unbound. -/
def time_updater_first_iteration (store : Store) (reset : Int) :
    Except PyVar (Store × TimeLocals × Int) :=
  let tl_limit := pyInt (store Key.impianto_TL_Counter_SetCounter)
  let bk_limit := pyInt (store Key.impianto_BK_Counter_SetCounter)
  let rb_limit := pyInt (store Key.impianto_RB_Counter_SetCounter)
  let run := pyInt (store Key.Operator_Pump_start)
  time_updater_iteration store reset run rb_limit bk_limit tl_limit
    ⟨none, none, none, none, none, none, none, none, none⟩

/-- C7: on the first `time_updater` iteration with the stored run flag 1 and
reset 0, the guard `rb_hour < rb_limit` reads the local `rb_hour` before any
assignment to it, so the iteration takes the unbound-variable error branch
(UnboundLocalError on rb_hour) instead of incrementing the counters — for
every store contents. -/
theorem time_updater_unbound_rb_hour (store : Store) (reset : Int)
    (hrun : pyInt (store Key.Operator_Pump_start) = 1) (hreset : reset = 0) :
    time_updater_first_iteration store reset = Except.error PyVar.rb_hour := by
  simp only [time_updater_first_iteration, time_updater_iteration, hrun, hreset, readLocal]
  norm_num
  rfl

/-- Witness for C7: with every setting stored as 1 and reset 0, the first
iteration errors on rb_hour. -/
theorem time_updater_unbound_rb_hour_witness :
    time_updater_first_iteration (fun _ => 1) 0 = Except.error PyVar.rb_hour :=
  time_updater_unbound_rb_hour (fun _ => 1) 0 (by decide) rfl

/-- C10: for every integer n, handling SET_PRESSURE_TARGET: n (store the
payload, forward RESET_PRESSURE_TARGET to the can process, which acknowledges
OK) followed by GET_INFO yields a snapshot whose outlet_pressure_target field
equals n — for any prior state, store and sensor readings. -/
theorem set_pressure_target_roundtrip (n : Int) (s : CanState) (store : Store)
    (inlet temperature raw : ℚ) (alarms : List Nat) :
    (socket_set_pressure_target n s store).2.2 = Reply.ok
    ∧ (build_data (socket_set_pressure_target n s store).1
        ((socket_set_pressure_target n s store).2.1)
        inlet temperature raw alarms).outlet_pressure_target = (n : ℚ)
    ∧ (handle_command Command.GET_INFO (socket_set_pressure_target n s store).1
        ((socket_set_pressure_target n s store).2.1)
        inlet temperature raw alarms).2.2.1
      = Reply.info (build_data (socket_set_pressure_target n s store).1
          ((socket_set_pressure_target n s store).2.1)
          inlet temperature raw alarms) := by
  refine ⟨rfl, ?_, rfl⟩
  simp [socket_set_pressure_target, handle_command, build_data, update_setting]
